import Mathlib

/-!
Shallow embedding of `src/ESA_SNAP_Utils/core.py` (esa-snappy-utilities):
the graph-construction and execution-orchestration engine.

The embedding models:
 * the parameter value domain handled by `_add_dict_into_element`
   (strings, nested dicts, `None`, and a constructor for values outside
   that domain such as ints or lists);
 * `xml.etree.ElementTree` elements as a finite tree `XElem`
   (tag, attributes in insertion order, optional text, children in
   insertion order) — `ET.SubElement` appends a fresh child to its parent
   at creation time;
 * `_blank_graph_xml`, `_add_dict_into_element`, `_add_node`
   (functions at core.py lines 191-243);
 * the graph-assembly portion of `Sequential.process` (lines 286-312),
   the transient-artifact naming of `Sequential.__init__` (lines 250-257),
   and the captured-mode invocation/log/cleanup tail (lines 319-362).

Python exceptions are modelled with `Except String`; a raised, uncaught
exception is `Except.error`.  Python dicts preserve insertion order, so a
dict is embedded as a `List (String × PValue)`.
-/

/-- Parameter values as classified by `_add_dict_into_element`
(core.py lines 201-208): Python `str`, Python `dict`, Python `None`, and
`other` for any value outside that domain (e.g. an `int` or a `list`),
for which `isinstance(v, str)`, `isinstance(v, dict)` and `v == None`
are all false, so the function's body falls through every branch. -/
inductive PValue : Type where
  | str (s : String)
  | dict (entries : List (String × PValue))
  | none
  | other (descr : String)

/-- An `xml.etree.ElementTree` element: tag, attributes (insertion
order), optional text, children (insertion order). -/
inductive XElem : Type where
  | mk (tag : String) (attrs : List (String × String))
       (text : Option String) (children : List XElem)
deriving Repr

/-- Tag of an element. -/
def XElem.tag : XElem → String
  | XElem.mk t _ _ _ => t

/-- Attribute list of an element. -/
def XElem.attrs : XElem → List (String × String)
  | XElem.mk _ a _ _ => a

/-- Text of an element. -/
def XElem.text : XElem → Option String
  | XElem.mk _ _ tx _ => tx

/-- Children of an element. -/
def XElem.children : XElem → List XElem
  | XElem.mk _ _ _ c => c

instance : Inhabited XElem := ⟨XElem.mk "" [] Option.none []⟩

/-- Attribute lookup, as `element.get(key)`. -/
def XElem.attr (e : XElem) (key : String) : Option String :=
  (e.attrs.find? (fun p => p.1 == key)).map (fun p => p.2)

/-- Attribute lookup with default `""`. -/
def XElem.attrD (e : XElem) (key : String) : String :=
  (e.attr key).getD ""

/-- Append one child to an element (what `ET.SubElement parent tag`
does to `parent`). -/
def XElem.appendChild : XElem → XElem → XElem
  | XElem.mk t a tx c, child => XElem.mk t a tx (c ++ [child])

/-- Append a list of children to an element. -/
def XElem.appendChildren : XElem → List XElem → XElem
  | XElem.mk t a tx c, l => XElem.mk t a tx (c ++ l)

mutual
/-- One loop iteration of `_add_dict_into_element` (core.py lines
202-208): `ET.SubElement(element, key)` is executed FIRST, appending a
fresh empty child; only then is the value inspected — a `str` value sets
the child's text, a `dict` value recurses into the (still attached)
child, a `None` value hits `continue` (a no-op: the child is already
attached), and any other value falls through all branches, likewise
leaving the attached empty child. -/
def serializeEntry (key : String) : PValue → XElem
  | PValue.str s => XElem.mk key [] (Option.some s) []
  | PValue.dict d => XElem.mk key [] Option.none (serializeEntries d)
  | PValue.none => XElem.mk key [] Option.none []
  | PValue.other _ => XElem.mk key [] Option.none []

/-- The children produced by running `_add_dict_into_element` over a
dict's entries in insertion order. -/
def serializeEntries : List (String × PValue) → List XElem
  | [] => []
  | (k, v) :: rest => serializeEntry k v :: serializeEntries rest
end

/-- `_add_dict_into_element(element, dict_)` (core.py lines 201-208):
appends one child per key of `dict_` to `element`, in insertion order.
The function contains no `raise` and no failing operation on this value
domain, so it is total. -/
def _add_dict_into_element (element : XElem) (dict_ : List (String × PValue)) : XElem :=
  element.appendChildren (serializeEntries dict_)

/-- `_blank_graph_xml()` (core.py lines 191-198): root element `graph`
with attribute `id="Graph"` and one child `version` with text `1.0`. -/
def _blank_graph_xml : XElem :=
  XElem.mk "graph" [("id", "Graph")] Option.none
    [XElem.mk "version" [] (Option.some "1.0") []]

/-- An operator as consumed by the graph writer: its `name` and its
`parameters` dict (`Operator` base class, core.py lines 109-134; the
name-mangled fields `_Operator__operator_name` / `_Operator__parameters`
set by the concrete subclasses). -/
structure OperatorM : Type where
  name : String
  parameters : List (String × PValue)

/-- The `last_node_id` argument of `_add_node` (core.py line 211),
classified the way the function's `isinstance` chain classifies it:
a `str`, a list whose items are all `str`, `None`, or anything else
(`badRef`, e.g. a list containing a non-string), which the function
rejects with `TypeError`. -/
inductive NodeRef : Type where
  | str (id : String)
  | strList (ids : List String)
  | noneRef
  | badRef (descr : String)
deriving DecidableEq, Repr

/-- One `sourceProduct` reference element as built by the fan-in loop of
`_add_node` (core.py lines 228-231): `suffix = f'.{idx}' if idx != 0
else ''`, tag `'sourceProduct' + suffix`, attribute `refid`. -/
def refElem (idx : Nat) (id : String) : XElem :=
  XElem.mk ("sourceProduct" ++ (if idx != 0 then "." ++ Nat.repr idx else ""))
    [("refid", id)] Option.none []

/-- The fan-in loop `for idx, id in enumerate(last_node_id)` of
`_add_node` (core.py lines 228-231), started at `idx`. -/
def sourceRefs (idx : Nat) : List String → List XElem
  | [] => []
  | id :: rest => refElem idx id :: sourceRefs (idx + 1) rest

/-- The children of the `sources` element of a node, per the
`isinstance` chain of `_add_node` (core.py lines 224-235): a single
string gives one unsuffixed `sourceProduct` reference; a list of strings
gives the enumerated fan-in references; `None` gives none; anything else
raises `TypeError`. -/
def sourcesChildren : NodeRef → Except String (List XElem)
  | NodeRef.str id => Except.ok [XElem.mk "sourceProduct" [("refid", id)] Option.none []]
  | NodeRef.strList ids => Except.ok (sourceRefs 0 ids)
  | NodeRef.noneRef => Except.ok []
  | NodeRef.badRef _ =>
      Except.error "The last_node_id should be either a string or a list of strings."

/-- The `node` element assembled by `_add_node` (core.py lines 213-241):
attribute `id`, then children `operator` (text = operator name),
`sources` (the reference elements), and `parameters` (attribute
`class="com.bc.ceres.binding.dom.XppDomElement"`, children from
`_add_dict_into_element` over the operator's parameters). -/
def nodeElem (node_id : String) (op : OperatorM) (srcs : List XElem) : XElem :=
  XElem.mk "node" [("id", node_id)] Option.none
    [ XElem.mk "operator" [] (Option.some op.name) [],
      XElem.mk "sources" [] Option.none srcs,
      XElem.mk "parameters" [("class", "com.bc.ceres.binding.dom.XppDomElement")]
        Option.none (serializeEntries op.parameters) ]

/-- `_add_node(root, node_id, operator, last_node_id)` (core.py lines
211-243): appends one assembled node element to `root` and returns
`root`; raises `TypeError` when `last_node_id` has the wrong shape.  (In
the source the `TypeError` is raised after the node element was already
attached to the mutable `root`; the exception then propagates out of the
whole graph build, so the partially-mutated root is never used — the
`Except.error` result models that propagation.)  No duplicate-id check
of any kind is performed. -/
def _add_node (root : XElem) (node_id : String) (op : OperatorM)
    (last_node_id : NodeRef) : Except String XElem :=
  match sourcesChildren last_node_id with
  | Except.error e => Except.error e
  | Except.ok srcs => Except.ok (root.appendChild (nodeElem node_id op srcs))

/-- `True` on the `ok` constructor of `Except`. -/
def isOkE {ε α : Type} : Except ε α → Bool
  | Except.ok _ => true
  | Except.error _ => false

/-- The node ids of a document, in order: the `id` attribute of each
`node` child of the root. -/
def nodeIdsOf (doc : XElem) : List String :=
  (doc.children.filter (fun c => c.tag == "node")).map (fun c => c.attrD "id")

/-- How many `node` children of `doc` carry the id `id`. -/
def countId (doc : XElem) (id : String) : Nat :=
  (nodeIdsOf doc).count id

/-- The slice of a `SnapProduct` that the graph builder reads
(core.py lines 43-61): its name, its filesystem `path`, and its raster
`size = (height, width)`. -/
structure SnapProductM : Type where
  name : String
  path : String
  height : Nat
  width : Nat
deriving DecidableEq, Repr

/-- Modelled from the spec: `parameter_parser.boolean_parameter_parser`
lives in `ESA_SNAP_Utils/parameter_parser.py`, which is not part of the
given sources; §4.1 of the spec types `useAdvancedOptions` and
`copyMetadata` as booleans inside a string-valued parameter mapping, so
the parser is modelled as rendering a Python bool to its string form. -/
def booleanParameterStr (b : Bool) : String :=
  if b then "true" else "false"

/-- Modelled from the spec: the output-format enumeration `WriteType`
lives in `ESA_SNAP_Utils/parameter_enum.py`, which is not part of the
given sources; §6 of the spec calls for a closed set of string codes
with "a default interchange format plus at least one alternative
container format", and §4.3 plus the claim name the default BEAM-DIMAP. -/
inductive WriteType : Type where
  | BEAM_DIMAP
  | GeoTIFF
deriving DecidableEq, Repr

/-- Modelled from the spec: the string code (`.value`) of each
`WriteType` member, as consumed by `Write.__init__`
(core.py line 183). -/
def WriteType.value : WriteType → String
  | WriteType.BEAM_DIMAP => "BEAM-DIMAP"
  | WriteType.GeoTIFF => "GeoTIFF"

/-- The default of the `output_format` parameter of
`Sequential.process` (core.py line 264): `WriteType.BEAM_DIMAP`. -/
def processDefaultFormat : WriteType := WriteType.BEAM_DIMAP

/-- `Read(product)` with the default keyword arguments, as built by
`Sequential.process` (core.py lines 149-166): operator name `Read` and
the six-entry parameter dict, where `pixelRegion` is
`f'0,0,{product.size[1]},{product.size[0]}'` (width then height) and
`bandNames` / `maskNames` are `None`. -/
def ReadOp (p : SnapProductM) : OperatorM :=
  { name := "Read",
    parameters :=
      [ ("useAdvancedOptions", PValue.str (booleanParameterStr false)),
        ("file", PValue.str p.path),
        ("copyMetadata", PValue.str (booleanParameterStr true)),
        ("bandNames", PValue.none),
        ("pixelRegion", PValue.str ("0,0," ++ Nat.repr p.width ++ "," ++ Nat.repr p.height)),
        ("maskNames", PValue.none) ] }

/-- `Write(output_path, output_format)` (core.py lines 172-187):
operator name `Write`, parameters `file` and `formatName` (the
enumeration member's `.value`). -/
def WriteOp (output_path : String) (output_format : WriteType) : OperatorM :=
  { name := "Write",
    parameters :=
      [ ("file", PValue.str output_path),
        ("formatName", PValue.str output_format.value) ] }

/-- The `input` argument of `Sequential.process`, classified the way
lines 290-301 of core.py classify it: a single `SnapProduct`, a tuple
whose items are all `SnapProduct` (the empty tuple satisfies the `all`
check vacuously), or anything else (`otherInput`: a non-tuple
non-product, or a tuple containing a non-product), which is rejected
with `TypeError`. -/
inductive ProcessInput : Type where
  | single (p : SnapProductM)
  | tuple (ps : List SnapProductM)
  | otherInput (descr : String)
deriving DecidableEq, Repr

/-- The read-node id of the multi-product loop of `Sequential.process`
(core.py lines 295-297): `suffix = f'({idx+1})' if idx != 0 else ''`,
id `'Read' + suffix`. -/
def readNodeId (idx : Nat) : String :=
  "Read" ++ (if idx != 0 then "(" ++ Nat.repr (idx + 1) ++ ")" else "")

/-- The loop `for idx, p in enumerate(input)` of `Sequential.process`
(core.py lines 294-299), started at index `idx` with the node ids
accumulated so far in `acc` (the Python `last_node_id` list): adds one
read node per product and appends its id to the list. -/
def addReadNodesAux (idx : Nat) (acc : List String) (root : XElem) :
    List SnapProductM → Except String (XElem × List String)
  | [] => Except.ok (root, acc)
  | p :: rest => do
      let node_id := readNodeId idx
      let root' ← _add_node root node_id (ReadOp p) NodeRef.noneRef
      addReadNodesAux (idx + 1) (acc ++ [node_id]) root' rest

/-- The operator-chain loop of `Sequential.process` (core.py lines
305-308): each operator becomes a node whose id is the operator's name
and whose predecessor reference is the running `last_node_id`, which is
then replaced by that name. -/
def addChainE (root : XElem) (last_node_id : NodeRef) :
    List OperatorM → Except String (XElem × NodeRef)
  | [] => Except.ok (root, last_node_id)
  | op :: rest => do
      let root' ← _add_node root op.name op last_node_id
      addChainE root' (NodeRef.str op.name) rest

/-- The graph-assembly portion of `Sequential.process` (core.py lines
286-312): a blank graph; read nodes from the input (a single product
gives one node `Read` and `last_node_id = 'Read'`; a tuple gives the
enumerated loop with `last_node_id` the accumulated id list; any other
shape raises `TypeError`); then the operator chain; then the terminal
`Write` node built from `output_path` and `output_format`. -/
def buildRoot (ops : List OperatorM) (input : ProcessInput)
    (output_path : String) (output_format : WriteType) : Except String XElem :=
  let root := _blank_graph_xml
  match input with
  | ProcessInput.single p => do
      let root1 ← _add_node root "Read" (ReadOp p) NodeRef.noneRef
      let (root2, last) ← addChainE root1 (NodeRef.str "Read") ops
      _add_node root2 "Write" (WriteOp output_path output_format) last
  | ProcessInput.tuple ps => do
      let (root1, ids) ← addReadNodesAux 0 [] root ps
      let (root2, last) ← addChainE root1 (NodeRef.strList ids) ops
      _add_node root2 "Write" (WriteOp output_path output_format) last
  | ProcessInput.otherInput _ =>
      Except.error "The input parameter should be either a SnapProduct instance or a tuple of SnapProduct instances."

/-- The components of `datetime.now()` that `Sequential.__init__`
formats into the transient artifact name (core.py lines 253-254). -/
structure Timestamp : Type where
  date : String
  hour : Nat
  minute : Nat
  second : Nat
  microsecond : Nat
deriving DecidableEq, Repr

/-- The f-string of core.py line 254:
`f'{home_folder}/graph_{date}-{hour}-{minute}-{second}-{microsecond}.xml'`. -/
def xmlPathOf (home_folder : String) (t : Timestamp) : String :=
  home_folder ++ "/graph_" ++ t.date ++ "-" ++ Nat.repr t.hour ++ "-"
    ++ Nat.repr t.minute ++ "-" ++ Nat.repr t.second ++ "-"
    ++ Nat.repr t.microsecond ++ ".xml"

/-- The state a `Sequential` instance carries between construction and
`process` calls (core.py lines 250-257): the transient artifact path
(fixed at construction), the engine executable path, and the operator
chain. -/
structure SequentialState : Type where
  xml_path : String
  gpt_path : String
  operators : List OperatorM

/-- `Sequential.__init__` (core.py lines 250-257), with the current
time at construction passed explicitly: the artifact path is computed
HERE, once, from that time. -/
def Sequential.mkState (home_folder : String) (now : Timestamp)
    (args : List OperatorM) : SequentialState :=
  { xml_path := xmlPathOf home_folder now,
    gpt_path := "gpt",
    operators := args }

/-- The transient artifact path that a `Sequential.process` call
serializes the graph to and later unlinks (core.py lines 317 and 362):
it reads `self.__xml_path` only — the time at which the call happens
(`call_time`, passed explicitly here) is never consulted. -/
def Sequential.processXmlPath (s : SequentialState) (_call_time : Timestamp) : String :=
  s.xml_path

/-- Outcome of `subprocess.run((gpt, xml), stdout=PIPE, stderr=PIPE,
text=True, check=True)` as discriminated by the handlers of core.py
lines 321-346: normal completion; `CalledProcessError` (non-zero exit;
carries `e.output`, the captured stdout); `FileNotFoundError` (missing
executable; carries `e.strerror`); or any other exception, which may or
may not expose an `output` attribute (`hasOutputAttr`) — ordinary
exceptions such as `PermissionError` do not. -/
inductive RunOutcome : Type where
  | success (stdout stderr : String)
  | calledProcessError (output : String)
  | fileNotFoundError (strerror : String)
  | otherException (hasOutputAttr : Bool) (output : String)
deriving DecidableEq, Repr

/-- The `try/except` block of core.py lines 321-346, producing the
`stdout`/`stderr` pair that the log writer receives.  On
`CalledProcessError`, `stdout = 'error!\n'` and `stderr = e.output`; on
`FileNotFoundError`, `stderr = e.strerror`; on any other exception the
handler evaluates `e.output`, which raises `AttributeError` when the
exception has no such attribute — that new exception is not caught by
anything. -/
def handleRun : RunOutcome → Except String (String × String)
  | RunOutcome.success out err => Except.ok (out, err)
  | RunOutcome.calledProcessError output => Except.ok ("error!\n", output)
  | RunOutcome.fileNotFoundError strerror => Except.ok ("error!\n", strerror)
  | RunOutcome.otherException true output => Except.ok ("error!\n", output)
  | RunOutcome.otherException false _ =>
      Except.error "AttributeError: the exception object has no attribute output"

/-- What remains observable of a captured-mode run after core.py lines
349-362: the text written to the log file, and whether the transient
graph artifact was unlinked. -/
structure CapturedRunResult : Type where
  log : String
  xmlDeleted : Bool
deriving DecidableEq, Repr

/-- The captured-mode tail of `Sequential.process` (core.py lines
319-362): run the engine, reduce the outcome through the handlers, then
write `'Output:\n' + stdout + 'ERROR:\n' + stderr` to the log and unlink
the graph artifact.  When a handler itself raises, the exception
propagates: the log is never written and the unlink on line 362 is never
reached. -/
def capturedTail (outcome : RunOutcome) : Except String CapturedRunResult :=
  match handleRun outcome with
  | Except.error e => Except.error e
  | Except.ok (stdout, stderr) =>
      Except.ok { log := "Output:\n" ++ stdout ++ "ERROR:\n" ++ stderr,
                  xmlDeleted := true }

/-- The separator line printed at the end of `Operator.__call__`
(core.py line 133): 86 equals signs and a newline. -/
def separatorLine : String := String.mk (List.replicate 86 '=') ++ "\n"

/-- `Operator.__call__(self, product)` (core.py lines 127-134), for a
concrete operator whose name-mangled `__operator_name` is `op_name`:
returns the pair (returned value, lines printed), where the returned
value is the literal string `'Successfully Operation.'`.  The colour
escape codes emitted by `colorama.Fore` are omitted from the printed
lines.  No graph element is built and the product is not touched beyond
reading `product_name` and `path`. -/
def Operator.callOp (op_name : String) (product : SnapProductM) : String × List String :=
  ( "Successfully Operation.",
    [ op_name ++ " for " ++ product.name ++ " starts ...",
      "gpt " ++ op_name ++ " -Ssource=\"" ++ product.path ++ "\" -t \"" ++ product.path ++ ".dim\"",
      op_name ++ " for " ++ product.name ++ " has completed.",
      separatorLine ] )

/-! ## Statement vocabulary and characterization lemmas -/

/-- The sources children that `_add_node` attaches for a well-typed
`last_node_id` (the `ok` payload of `sourcesChildren`). -/
def sourcesOk : NodeRef → List XElem
  | NodeRef.str id => [XElem.mk "sourceProduct" [("refid", id)] Option.none []]
  | NodeRef.strList ids => sourceRefs 0 ids
  | NodeRef.noneRef => []
  | NodeRef.badRef _ => []

/-- `false` exactly on the shapes that `_add_node` rejects with
`TypeError`. -/
def NodeRef.isGood : NodeRef → Bool
  | NodeRef.badRef _ => false
  | _ => true

/-- The node elements the operator-chain loop appends, in order. -/
def chainElems (last : NodeRef) : List OperatorM → List XElem
  | [] => []
  | op :: rest => nodeElem op.name op (sourcesOk last) :: chainElems (NodeRef.str op.name) rest

/-- The value of `last_node_id` after the operator-chain loop. -/
def chainLast (last : NodeRef) : List OperatorM → NodeRef
  | [] => last
  | op :: rest => chainLast (NodeRef.str op.name) rest

/-- The read-node elements the multi-product loop appends, in order. -/
def readElems (idx : Nat) : List SnapProductM → List XElem
  | [] => []
  | p :: rest => nodeElem (readNodeId idx) (ReadOp p) [] :: readElems (idx + 1) rest

/-- The read-node ids the multi-product loop accumulates, in order. -/
def readIds (idx : Nat) : List SnapProductM → List String
  | [] => []
  | _ :: rest => readNodeId idx :: readIds (idx + 1) rest

theorem appendChildren_nil (r : XElem) : r.appendChildren [] = r := by
  cases r; simp [XElem.appendChildren]

theorem appendChild_eq (r : XElem) (x : XElem) :
    r.appendChild x = r.appendChildren [x] := by
  cases r; rfl

theorem appendChildren_appendChildren (r : XElem) (l1 l2 : List XElem) :
    (r.appendChildren l1).appendChildren l2 = r.appendChildren (l1 ++ l2) := by
  cases r; simp [XElem.appendChildren]

theorem children_appendChildren (r : XElem) (l : List XElem) :
    (r.appendChildren l).children = r.children ++ l := by
  cases r; rfl

theorem exceptBind_ok {ε α β : Type} (a : α) (f : α → Except ε β) :
    (Except.ok a >>= f : Except ε β) = f a := rfl

theorem sourcesChildren_good (r : NodeRef) (h : r.isGood = true) :
    sourcesChildren r = Except.ok (sourcesOk r) := by
  cases r <;> simp_all [sourcesChildren, sourcesOk, NodeRef.isGood]

theorem add_node_good (root : XElem) (nid : String) (op : OperatorM) (r : NodeRef)
    (h : r.isGood = true) :
    _add_node root nid op r
      = Except.ok (root.appendChild (nodeElem nid op (sourcesOk r))) := by
  unfold _add_node
  rw [sourcesChildren_good r h]

theorem add_node_none (root : XElem) (nid : String) (op : OperatorM) :
    _add_node root nid op NodeRef.noneRef
      = Except.ok (root.appendChild (nodeElem nid op [])) := rfl

theorem add_node_strList (root : XElem) (nid : String) (op : OperatorM) (ids : List String) :
    _add_node root nid op (NodeRef.strList ids)
      = Except.ok (root.appendChild (nodeElem nid op (sourceRefs 0 ids))) := rfl

theorem chainLast_good (ops : List OperatorM) : ∀ (last : NodeRef),
    last.isGood = true → (chainLast last ops).isGood = true := by
  induction ops with
  | nil => intro last h; exact h
  | cons op rest ih => intro last h; exact ih (NodeRef.str op.name) rfl

theorem addChainE_spec (ops : List OperatorM) : ∀ (root : XElem) (last : NodeRef),
    last.isGood = true →
    addChainE root last ops
      = Except.ok (root.appendChildren (chainElems last ops), chainLast last ops) := by
  induction ops with
  | nil => intro root last _; simp [addChainE, chainElems, chainLast, appendChildren_nil]
  | cons op rest ih =>
      intro root last h
      simp only [addChainE, chainElems, chainLast, add_node_good root op.name op last h,
        exceptBind_ok, ih _ (NodeRef.str op.name) rfl, appendChild_eq,
        appendChildren_appendChildren, List.singleton_append]

theorem addReadNodesAux_spec (ps : List SnapProductM) :
    ∀ (idx : Nat) (acc : List String) (root : XElem),
    addReadNodesAux idx acc root ps
      = Except.ok (root.appendChildren (readElems idx ps), acc ++ readIds idx ps) := by
  induction ps with
  | nil => intro idx acc root; simp [addReadNodesAux, readElems, readIds, appendChildren_nil]
  | cons p rest ih =>
      intro idx acc root
      simp only [addReadNodesAux, readElems, readIds, add_node_none, exceptBind_ok,
        ih (idx + 1) (acc ++ [readNodeId idx]) _, appendChild_eq,
        appendChildren_appendChildren, List.singleton_append, List.append_assoc,
        List.cons_append, List.nil_append]

theorem buildRoot_single_eq (ops : List OperatorM) (p : SnapProductM)
    (path : String) (fmt : WriteType) :
    buildRoot ops (ProcessInput.single p) path fmt
      = Except.ok (_blank_graph_xml.appendChildren
          (nodeElem "Read" (ReadOp p) []
            :: chainElems (NodeRef.str "Read") ops
            ++ [nodeElem "Write" (WriteOp path fmt)
                  (sourcesOk (chainLast (NodeRef.str "Read") ops))])) := by
  have hlast : (chainLast (NodeRef.str "Read") ops).isGood = true :=
    chainLast_good ops (NodeRef.str "Read") rfl
  simp only [buildRoot, add_node_none, exceptBind_ok,
    addChainE_spec ops _ (NodeRef.str "Read") rfl,
    add_node_good _ _ _ _ hlast, appendChild_eq, appendChildren_appendChildren,
    List.singleton_append, List.cons_append, List.append_assoc, List.nil_append]

theorem buildRoot_tuple_eq (ops : List OperatorM) (ps : List SnapProductM)
    (path : String) (fmt : WriteType) :
    buildRoot ops (ProcessInput.tuple ps) path fmt
      = Except.ok (_blank_graph_xml.appendChildren
          (readElems 0 ps
            ++ chainElems (NodeRef.strList (readIds 0 ps)) ops
            ++ [nodeElem "Write" (WriteOp path fmt)
                  (sourcesOk (chainLast (NodeRef.strList (readIds 0 ps)) ops))])) := by
  have hlast : (chainLast (NodeRef.strList (readIds 0 ps)) ops).isGood = true :=
    chainLast_good ops (NodeRef.strList (readIds 0 ps)) rfl
  simp only [buildRoot, addReadNodesAux_spec ps 0 [] _blank_graph_xml, exceptBind_ok,
    List.nil_append, addChainE_spec ops _ (NodeRef.strList (readIds 0 ps)) rfl,
    add_node_good _ _ _ _ hlast, appendChild_eq, appendChildren_appendChildren,
    List.append_assoc]

theorem nodeIdsOf_blank_append (l : List XElem) :
    nodeIdsOf (_blank_graph_xml.appendChildren l)
      = ((l.filter (fun c => c.tag == "node")).map (fun c => c.attrD "id")) := by
  simp [nodeIdsOf, _blank_graph_xml, XElem.appendChildren, XElem.children,
    List.filter_cons, XElem.tag]

theorem nodeElem_tag (node_id : String) (op : OperatorM) (srcs : List XElem) :
    (nodeElem node_id op srcs).tag = "node" := rfl

theorem nodeElem_id (node_id : String) (op : OperatorM) (srcs : List XElem) :
    (nodeElem node_id op srcs).attrD "id" = node_id := rfl

theorem filterMap_readElems (ps : List SnapProductM) : ∀ (idx : Nat),
    ((readElems idx ps).filter (fun c => c.tag == "node")).map (fun c => c.attrD "id")
      = readIds idx ps := by
  induction ps with
  | nil => intro idx; rfl
  | cons p rest ih =>
      intro idx
      simp [readElems, readIds, List.filter_cons, nodeElem_tag, nodeElem_id, ih (idx + 1)]

theorem filterMap_chainElems (ops : List OperatorM) : ∀ (last : NodeRef),
    ((chainElems last ops).filter (fun c => c.tag == "node")).map (fun c => c.attrD "id")
      = ops.map OperatorM.name := by
  induction ops with
  | nil => intro last; rfl
  | cons op rest ih =>
      intro last
      simp [chainElems, List.filter_cons, nodeElem_tag, nodeElem_id, ih (NodeRef.str op.name)]

theorem nodeIdsOf_buildRoot_tuple (ops : List OperatorM) (ps : List SnapProductM)
    (path : String) (fmt : WriteType) :
    (buildRoot ops (ProcessInput.tuple ps) path fmt).map nodeIdsOf
      = Except.ok (readIds 0 ps ++ ops.map OperatorM.name ++ ["Write"]) := by
  rw [buildRoot_tuple_eq]
  simp [Except.map, nodeIdsOf_blank_append, List.filter_append, List.filter_cons,
    nodeElem_tag, nodeElem_id, filterMap_readElems, filterMap_chainElems]

theorem nodeIdsOf_buildRoot_single (ops : List OperatorM) (p : SnapProductM)
    (path : String) (fmt : WriteType) :
    (buildRoot ops (ProcessInput.single p) path fmt).map nodeIdsOf
      = Except.ok ("Read" :: (ops.map OperatorM.name ++ ["Write"])) := by
  rw [buildRoot_single_eq]
  simp [Except.map, nodeIdsOf_blank_append, List.filter_append, List.filter_cons,
    nodeElem_tag, nodeElem_id, filterMap_chainElems]

theorem readIds_length (ps : List SnapProductM) : ∀ (idx : Nat),
    (readIds idx ps).length = ps.length := by
  induction ps with
  | nil => intro idx; rfl
  | cons p rest ih => intro idx; simp [readIds, ih (idx + 1)]

theorem readIds_getD (ps : List SnapProductM) : ∀ (idx i : Nat), i < ps.length →
    (readIds idx ps).getD i "" = readNodeId (idx + i) := by
  induction ps with
  | nil => intro idx i h; exact absurd h (by simp)
  | cons p rest ih =>
      intro idx i h
      cases i with
      | zero => rfl
      | succ i' =>
          have h' : i' < rest.length := by simpa using h
          have := ih (idx + 1) i' h'
          simpa [readIds, Nat.add_assoc, Nat.add_comm 1 i'] using this

theorem readNodeId_zero : readNodeId 0 = "Read" := by decide

theorem readNodeId_pos (i : Nat) (h : 0 < i) :
    readNodeId i = "Read(" ++ Nat.repr (i + 1) ++ ")" := by
  have hne : (i != 0) = true := by simpa using Nat.pos_iff_ne_zero.mp h
  have hR : ("Read(" : String) = "Read" ++ "(" := by decide
  have h1 : readNodeId i = "Read" ++ ("(" ++ Nat.repr (i + 1) ++ ")") := by
    simp [readNodeId, hne]
  rw [h1, hR]
  simp only [String.append_assoc]

theorem sourceRefs_length (ids : List String) : ∀ (idx : Nat),
    (sourceRefs idx ids).length = ids.length := by
  induction ids with
  | nil => intro idx; rfl
  | cons id rest ih => intro idx; simp [sourceRefs, ih (idx + 1)]

theorem sourceRefs_getD (ids : List String) : ∀ (idx i : Nat), i < ids.length →
    (sourceRefs idx ids).getD i default = refElem (idx + i) (ids.getD i "") := by
  induction ids with
  | nil => intro idx i h; exact absurd h (by simp)
  | cons id rest ih =>
      intro idx i h
      cases i with
      | zero => rfl
      | succ i' =>
          have h' : i' < rest.length := by simpa using h
          have := ih (idx + 1) i' h'
          simpa [sourceRefs, Nat.add_assoc, Nat.add_comm 1 i'] using this

/-- The `last_node_id` value in force when the terminal `Write` node is
added, as a function of the `input` shape, before the operator chain
runs: `'Read'` for a single product, the accumulated id list for a
tuple. -/
def readRef : ProcessInput → NodeRef
  | ProcessInput.single _ => NodeRef.str "Read"
  | ProcessInput.tuple ps => NodeRef.strList (readIds 0 ps)
  | ProcessInput.otherInput _ => NodeRef.noneRef

theorem chainLast_concat (l : List OperatorM) (op : OperatorM) : ∀ (last : NodeRef),
    chainLast last (l ++ [op]) = NodeRef.str op.name := by
  induction l with
  | nil => intro last; rfl
  | cons o rest ih => intro last; simpa [chainLast] using ih (NodeRef.str o.name)

theorem nodeIdsOf_appendChild_node (root : XElem) (nid : String) (op : OperatorM)
    (srcs : List XElem) :
    nodeIdsOf (root.appendChild (nodeElem nid op srcs)) = nodeIdsOf root ++ [nid] := by
  cases root
  simp [nodeIdsOf, XElem.appendChild, XElem.children, List.filter_append,
    List.filter_cons, nodeElem_tag, nodeElem_id]

theorem getLast?_children_buildRoot (ops : List OperatorM) (input : ProcessInput)
    (path : String) (fmt : WriteType) (hv : ∀ d, input ≠ ProcessInput.otherInput d) :
    (buildRoot ops input path fmt).map (fun d => d.children.getLast?)
      = Except.ok (Option.some (nodeElem "Write" (WriteOp path fmt)
          (sourcesOk (chainLast (readRef input) ops)))) := by
  cases input with
  | single p =>
      rw [buildRoot_single_eq]
      simp only [Except.map, children_appendChildren, readRef]
      rw [show (_blank_graph_xml.children
            ++ (nodeElem "Read" (ReadOp p) [] :: chainElems (NodeRef.str "Read") ops
                ++ [nodeElem "Write" (WriteOp path fmt)
                      (sourcesOk (chainLast (NodeRef.str "Read") ops))]))
          = (_blank_graph_xml.children
              ++ nodeElem "Read" (ReadOp p) [] :: chainElems (NodeRef.str "Read") ops)
            ++ [nodeElem "Write" (WriteOp path fmt)
                  (sourcesOk (chainLast (NodeRef.str "Read") ops))] from by simp]
      rw [List.getLast?_concat]
  | tuple ps =>
      rw [buildRoot_tuple_eq]
      simp only [Except.map, children_appendChildren, readRef]
      rw [show (_blank_graph_xml.children
            ++ (readElems 0 ps ++ chainElems (NodeRef.strList (readIds 0 ps)) ops
                ++ [nodeElem "Write" (WriteOp path fmt)
                      (sourcesOk (chainLast (NodeRef.strList (readIds 0 ps)) ops))]))
          = (_blank_graph_xml.children
              ++ readElems 0 ps ++ chainElems (NodeRef.strList (readIds 0 ps)) ops)
            ++ [nodeElem "Write" (WriteOp path fmt)
                  (sourcesOk (chainLast (NodeRef.strList (readIds 0 ps)) ops))] from by simp]
      rw [List.getLast?_concat]
  | otherInput d => exact absurd rfl (hv d)

/-! ## Claim theorems -/

/-- C1 (code evaluated at the failing input): the claim says an absent
(`None`) parameter value never produces an element.  On the mapping
`{"bandNames": None}` — carried by every `Read` operator —
`_add_dict_into_element` emits an empty `bandNames` element with no
text, no attributes and no children, because `ET.SubElement` runs
before the value is inspected and the `continue` cannot undo the
already-attached child: the serialized subtree is NOT the mapping with
absent-valued keys removed. -/
theorem c1_absent_value_emits_empty_element :
    _add_dict_into_element (XElem.mk "parameters" [] Option.none [])
        [("bandNames", PValue.none)]
      = XElem.mk "parameters" [] Option.none [XElem.mk "bandNames" [] Option.none []]
    ∧ serializeEntries [("bandNames", PValue.none)] ≠ [] := by
  refine ⟨rfl, fun h => ?_⟩
  simp [serializeEntries] at h

/-- C2 (code evaluated at the failing input): in captured mode the two
specifically-anticipated failures behave as the claim says — shown here
for the missing-executable scenario (stdout reduced to `error!\n`, the
OS error text after `ERROR:`, artifact still deleted) and for a
non-zero exit status — but an invocation failure of any OTHER kind
whose exception lacks an `output` attribute (e.g. `PermissionError`)
makes the generic handler itself raise `AttributeError` while
evaluating `e.output`: that exception escapes to the caller, the log is
never written, and the transient graph artifact is never unlinked. -/
theorem c2_generic_handler_raises :
    capturedTail (RunOutcome.fileNotFoundError "No such file or directory")
      = Except.ok { log := "Output:\nerror!\nERROR:\nNo such file or directory",
                    xmlDeleted := true }
    ∧ capturedTail (RunOutcome.calledProcessError "engine output")
      = Except.ok { log := "Output:\nerror!\nERROR:\nengine output",
                    xmlDeleted := true }
    ∧ isOkE (capturedTail (RunOutcome.otherException false "")) = false := by
  exact ⟨rfl, rfl, rfl⟩

/-- The operator used in the duplicate-id counterexample. -/
def c3op : OperatorM := { name := "Smooth", parameters := [] }

/-- A blank graph to which a node with id `"A"` was already added. -/
def c3root : XElem := _blank_graph_xml.appendChild (nodeElem "A" c3op [])

/-- Adding a node with the already-present id `"A"` a second time. -/
def c3doc : Except String XElem := _add_node c3root "A" c3op NodeRef.noneRef

/-- C3 (counterexample): adding a node whose id `"A"` already exists in
the document is NOT rejected — `_add_node` succeeds and the resulting
document carries two nodes with id `"A"`. -/
theorem c3_duplicate_id_accepted :
    isOkE c3doc = true ∧ c3doc.map (fun d => countId d "A") = Except.ok 2 :=
  ⟨rfl, rfl⟩

/-- C3 (amended): `_add_node` performs no duplicate-id check of any
kind: adding a node whose id already occurs in the document is accepted
and appends a second node with that id — the count of nodes carrying
the id grows by one — so node ids are not unique within a document. -/
theorem c3_duplicate_id_appended (root : XElem) (id : String) (op : OperatorM)
    (_h : 1 ≤ countId root id) :
    (_add_node root id op NodeRef.noneRef).map (fun d => countId d id)
      = Except.ok (countId root id + 1) := by
  simp [add_node_none, Except.map, countId, nodeIdsOf_appendChild_node,
    List.count_append]

/-- Witness for C3: the concrete document `c3root` already contains a
node with id `"A"`, and adding another one yields count 2. -/
theorem c3_duplicate_id_appended_witness :
    1 ≤ countId c3root "A"
    ∧ (_add_node c3root "A" c3op NodeRef.noneRef).map (fun d => countId d "A")
      = Except.ok (countId c3root "A" + 1) :=
  ⟨by decide, c3_duplicate_id_appended c3root "A" c3op (by decide)⟩

/-- The `Sequential` instance of the identical-arguments scenario,
constructed at one fixed clock reading. -/
def c4state : SequentialState :=
  Sequential.mkState "/home/user"
    { date := "2026-10-12", hour := 9, minute := 30, second := 0, microsecond := 123456 } []

/-- C4 (counterexample): two `process` calls on the same `Sequential`
instance, at call times that differ down to the microsecond, use the
SAME transient artifact path — not two distinct ones — because the name
is derived from the clock once, in `__init__`, and `process` only reads
the stored `self.__xml_path`. -/
theorem c4_same_artifact_path :
    ({ date := "2026-10-12", hour := 9, minute := 30, second := 1, microsecond := 111111 } : Timestamp)
      ≠ { date := "2026-10-12", hour := 9, minute := 30, second := 2, microsecond := 222222 }
    ∧ Sequential.processXmlPath c4state
        { date := "2026-10-12", hour := 9, minute := 30, second := 1, microsecond := 111111 }
      = Sequential.processXmlPath c4state
        { date := "2026-10-12", hour := 9, minute := 30, second := 2, microsecond := 222222 } :=
  ⟨by decide, rfl⟩

/-- C4 (amended): the transient artifact name
`{home}/graph_{date}-{hour}-{minute}-{second}-{microsecond}.xml` is
derived from the current timestamp once, at `Sequential` construction;
every `process` call on the same instance, whatever the clock reads at
call time, serializes to and unlinks that same fixed path, so two calls
with identical arguments on one instance share one artifact name. -/
theorem c4_path_fixed_at_construction (home : String) (t : Timestamp)
    (ops : List OperatorM) (t1 t2 : Timestamp) :
    Sequential.processXmlPath (Sequential.mkState home t ops) t1
      = Sequential.processXmlPath (Sequential.mkState home t ops) t2
    ∧ Sequential.processXmlPath (Sequential.mkState home t ops) t1 = xmlPathOf home t :=
  ⟨rfl, rfl⟩

/-- C5: for a tuple of N ≥ 1 products, the built document's node ids
begin with exactly N read-node ids in input order — `Read` at index 0,
`Read(i+1)` at every index i > 0 (1-based parenthesized suffix, none on
the first) — followed by the operator chain and the write node; a
single product yields exactly one read node with id `Read`. -/
theorem c5_read_node_ids (ps : List SnapProductM) (ops : List OperatorM)
    (path : String) (fmt : WriteType) (p : SnapProductM) (h : 1 ≤ ps.length) :
    (buildRoot ops (ProcessInput.tuple ps) path fmt).map nodeIdsOf
      = Except.ok (readIds 0 ps ++ ops.map OperatorM.name ++ ["Write"])
    ∧ (readIds 0 ps).length = ps.length
    ∧ (readIds 0 ps).getD 0 "" = "Read"
    ∧ (∀ i, 0 < i → i < ps.length →
        (readIds 0 ps).getD i "" = "Read(" ++ Nat.repr (i + 1) ++ ")")
    ∧ (buildRoot ops (ProcessInput.single p) path fmt).map nodeIdsOf
      = Except.ok ("Read" :: (ops.map OperatorM.name ++ ["Write"])) := by
  refine ⟨nodeIdsOf_buildRoot_tuple ops ps path fmt, readIds_length ps 0, ?_, ?_,
    nodeIdsOf_buildRoot_single ops p path fmt⟩
  · have := readIds_getD ps 0 0 h
    simpa [readNodeId_zero] using this
  · intro i hi hlen
    have hg := readIds_getD ps 0 i hlen
    rw [hg]
    simpa using readNodeId_pos i hi

/-- Concrete products for the C5 witness. -/
def c5ps : List SnapProductM :=
  [ { name := "A", path := "/data/a.zip", height := 10, width := 20 },
    { name := "B", path := "/data/b.zip", height := 30, width := 40 },
    { name := "C", path := "/data/c.zip", height := 50, width := 60 } ]

/-- Concrete operator chain for the C5 witness. -/
def c5ops : List OperatorM := [{ name := "Merge", parameters := [] }]

/-- Witness for C5 at three products and a one-operator chain. -/
theorem c5_read_node_ids_witness :
    1 ≤ c5ps.length
    ∧ ((buildRoot c5ops (ProcessInput.tuple c5ps) "/tmp/m.dim" WriteType.BEAM_DIMAP).map nodeIdsOf
        = Except.ok (readIds 0 c5ps ++ c5ops.map OperatorM.name ++ ["Write"])
      ∧ (readIds 0 c5ps).length = c5ps.length
      ∧ (readIds 0 c5ps).getD 0 "" = "Read"
      ∧ (∀ i, 0 < i → i < c5ps.length →
          (readIds 0 c5ps).getD i "" = "Read(" ++ Nat.repr (i + 1) ++ ")")
      ∧ (buildRoot c5ops
            (ProcessInput.single { name := "S1", path := "/data/s1.zip", height := 7, width := 8 })
            "/tmp/m.dim" WriteType.BEAM_DIMAP).map nodeIdsOf
        = Except.ok ("Read" :: (c5ops.map OperatorM.name ++ ["Write"]))) :=
  ⟨by decide,
   c5_read_node_ids c5ps c5ops "/tmp/m.dim" WriteType.BEAM_DIMAP
     { name := "S1", path := "/data/s1.zip", height := 7, width := 8 } (by decide)⟩

/-- C6: a node added with an ordered predecessor list `ids` gets
reference elements tagged `sourceProduct` (index 0, never suffixed) and
`sourceProduct.i` (index i > 0) in input order, whose `refid`
attributes are the predecessor ids in order. -/
theorem c6_source_reference_slots (root : XElem) (nid : String) (op : OperatorM)
    (ids : List String) (i : Nat) (h : i < ids.length) :
    _add_node root nid op (NodeRef.strList ids)
      = Except.ok (root.appendChild (nodeElem nid op (sourceRefs 0 ids)))
    ∧ (sourceRefs 0 ids).length = ids.length
    ∧ ((sourceRefs 0 ids).getD i default).tag
        = (if i = 0 then "sourceProduct" else "sourceProduct" ++ "." ++ Nat.repr i)
    ∧ ((sourceRefs 0 ids).getD i default).attr "refid" = Option.some (ids.getD i "") := by
  refine ⟨add_node_strList root nid op ids, sourceRefs_length ids 0, ?_, ?_⟩
  · rw [sourceRefs_getD ids 0 i h]
    by_cases h0 : i = 0
    · subst h0; rfl
    · have hne : (i != 0) = true := by simpa using h0
      rw [if_neg h0]
      have h1 : (refElem (0 + i) (ids.getD i "")).tag
          = "sourceProduct" ++ ("." ++ Nat.repr i) := by
        simp [refElem, XElem.tag, hne]
      rw [h1]
      exact (String.append_assoc _ _ _).symm
  · rw [sourceRefs_getD ids 0 i h]; rfl

/-- Witness for C6 at the predecessor list `[a, b, c]` and index 1. -/
theorem c6_source_reference_slots_witness :
    1 < (["a", "b", "c"] : List String).length
    ∧ (_add_node _blank_graph_xml "Merge" { name := "Merge", parameters := [] }
          (NodeRef.strList ["a", "b", "c"])
        = Except.ok (_blank_graph_xml.appendChild
            (nodeElem "Merge" { name := "Merge", parameters := [] }
              (sourceRefs 0 ["a", "b", "c"])))
      ∧ (sourceRefs 0 ["a", "b", "c"]).length = (["a", "b", "c"] : List String).length
      ∧ ((sourceRefs 0 ["a", "b", "c"]).getD 1 default).tag
          = (if 1 = 0 then "sourceProduct" else "sourceProduct" ++ "." ++ Nat.repr 1)
      ∧ ((sourceRefs 0 ["a", "b", "c"]).getD 1 default).attr "refid"
          = Option.some ((["a", "b", "c"] : List String).getD 1 "")) :=
  ⟨by decide,
   c6_source_reference_slots _blank_graph_xml "Merge" { name := "Merge", parameters := [] }
     ["a", "b", "c"] 1 (by decide)⟩

/-- C7 (counterexample): the empty tuple — neither a single product nor
a non-empty collection — is NOT rejected with a type error: the `all`
check of core.py line 293 holds vacuously on it, the build succeeds,
and the resulting document's only node is the Write node (no read
nodes). -/
theorem c7_empty_tuple_accepted :
    isOkE (buildRoot [] (ProcessInput.tuple []) "/tmp/out.dim" WriteType.BEAM_DIMAP) = true
    ∧ (buildRoot [] (ProcessInput.tuple []) "/tmp/out.dim" WriteType.BEAM_DIMAP).map nodeIdsOf
        = Except.ok ["Write"] :=
  ⟨rfl, rfl⟩

/-- C7 (amended): `process` raises `TypeError` exactly for input shapes
that are neither a `SnapProduct` nor a tuple whose items are all
`SnapProduct`s; a tuple of products of ANY length is accepted — in
particular the empty tuple is not rejected, and instead yields a graph
with zero read nodes. -/
theorem c7_input_type_error (ops : List OperatorM) (path : String) (fmt : WriteType)
    (d : String) (ps : List SnapProductM) :
    buildRoot ops (ProcessInput.otherInput d) path fmt
      = Except.error "The input parameter should be either a SnapProduct instance or a tuple of SnapProduct instances."
    ∧ isOkE (buildRoot ops (ProcessInput.tuple ps) path fmt) = true := by
  refine ⟨rfl, ?_⟩
  rw [buildRoot_tuple_eq]
  rfl

/-- `true` exactly on the input shapes that pass the `isinstance` chain
of core.py lines 290-301 without raising `TypeError`. -/
def ProcessInput.isTyped : ProcessInput → Bool
  | ProcessInput.otherInput _ => false
  | _ => true

/-- C8: for every `process` call whose input passes the type check,
exactly one terminal `Write` node is appended as the LAST node of the
document; its predecessor reference is the last operator's name when
the chain is non-empty and the read-stage reference (the single id
`Read`, or the accumulated read-id list) when the chain is empty; its
parameters are `file = output_path` and `formatName = output_format`,
and the `output_format` default of `process` is `BEAM-DIMAP`. -/
theorem c8_terminal_write_node (ops : List OperatorM) (input : ProcessInput)
    (path : String) (fmt : WriteType) (l : List OperatorM) (op : OperatorM)
    (ht : input.isTyped = true) :
    (buildRoot ops input path fmt).map (fun d => d.children.getLast?)
      = Except.ok (Option.some (nodeElem "Write" (WriteOp path fmt)
          (sourcesOk (chainLast (readRef input) ops))))
    ∧ (ops = [] → chainLast (readRef input) ops = readRef input)
    ∧ (ops = l ++ [op] → chainLast (readRef input) ops = NodeRef.str op.name)
    ∧ (WriteOp path fmt).parameters
        = [("file", PValue.str path), ("formatName", PValue.str fmt.value)]
    ∧ processDefaultFormat.value = "BEAM-DIMAP" := by
  have hv : ∀ d, input ≠ ProcessInput.otherInput d := by
    intro d hd
    subst hd
    simp [ProcessInput.isTyped] at ht
  refine ⟨getLast?_children_buildRoot ops input path fmt hv, ?_, ?_, rfl, rfl⟩
  · intro h; subst h; rfl
  · intro h; subst h; exact chainLast_concat l op (readRef input)

/-- Witness for C8 at a single product and a one-operator chain. -/
theorem c8_terminal_write_node_witness :
    (ProcessInput.single { name := "S1", path := "/s1.zip", height := 3, width := 4 }).isTyped = true
    ∧ ((buildRoot [{ name := "Merge", parameters := [] }]
          (ProcessInput.single { name := "S1", path := "/s1.zip", height := 3, width := 4 })
          "/tmp/out.dim" WriteType.BEAM_DIMAP).map (fun d => d.children.getLast?)
        = Except.ok (Option.some (nodeElem "Write" (WriteOp "/tmp/out.dim" WriteType.BEAM_DIMAP)
            (sourcesOk (chainLast
              (readRef (ProcessInput.single { name := "S1", path := "/s1.zip", height := 3, width := 4 }))
              [{ name := "Merge", parameters := [] }]))))
      ∧ ([{ name := "Merge", parameters := [] }] = ([] : List OperatorM) →
          chainLast (readRef (ProcessInput.single { name := "S1", path := "/s1.zip", height := 3, width := 4 }))
            [{ name := "Merge", parameters := [] }]
          = readRef (ProcessInput.single { name := "S1", path := "/s1.zip", height := 3, width := 4 }))
      ∧ ([{ name := "Merge", parameters := [] }] = [] ++ [({ name := "Merge", parameters := [] } : OperatorM)] →
          chainLast (readRef (ProcessInput.single { name := "S1", path := "/s1.zip", height := 3, width := 4 }))
            [{ name := "Merge", parameters := [] }]
          = NodeRef.str ({ name := "Merge", parameters := [] } : OperatorM).name)
      ∧ (WriteOp "/tmp/out.dim" WriteType.BEAM_DIMAP).parameters
          = [("file", PValue.str "/tmp/out.dim"),
             ("formatName", PValue.str WriteType.BEAM_DIMAP.value)]
      ∧ processDefaultFormat.value = "BEAM-DIMAP") :=
  ⟨rfl,
   c8_terminal_write_node [{ name := "Merge", parameters := [] }]
     (ProcessInput.single { name := "S1", path := "/s1.zip", height := 3, width := 4 })
     "/tmp/out.dim" WriteType.BEAM_DIMAP [] { name := "Merge", parameters := [] } rfl⟩

/-- The operator of the out-of-domain-parameter counterexample: its
mapping carries a value that is neither a string, nor a dict, nor
`None` (a Python `int`). -/
def c9op : OperatorM :=
  { name := "SomeOp", parameters := [("k", PValue.other "the Python int 5")] }

/-- C9 (counterexample): serializing a parameter mapping that contains
an out-of-domain value (a Python `int`) does NOT fail loudly:
`_add_node` on an operator carrying that mapping succeeds, and the
offending key is silently emitted as an empty element. -/
theorem c9_out_of_domain_no_error :
    isOkE (_add_node _blank_graph_xml "N" c9op NodeRef.noneRef) = true
    ∧ serializeEntries c9op.parameters = [XElem.mk "k" [] Option.none []] :=
  ⟨rfl, rfl⟩

/-- C9 (amended): a parameter value outside the {string, nested
mapping, absent} domain is serialized silently, never with an error:
all three branch tests of `_add_dict_into_element` are false on it, so
the key is emitted as the already-attached empty element (no text, no
children) and the value's content never appears; node serialization
over such a mapping still succeeds. -/
theorem c9_out_of_domain_silent (k d : String) (rest : List (String × PValue))
    (root : XElem) (nid opname : String) :
    serializeEntries ((k, PValue.other d) :: rest)
      = XElem.mk k [] Option.none [] :: serializeEntries rest
    ∧ isOkE (_add_node root nid { name := opname, parameters := (k, PValue.other d) :: rest }
        NodeRef.noneRef) = true :=
  ⟨rfl, rfl⟩

/-- C10: `Operator.__call__` returns the literal string
`'Successfully Operation.'` whatever operator name and whatever product
it is applied to — its result is this constant string, never a product;
in the embedding it produces no graph element and reads the product
only for the text it prints. -/
theorem c10_call_returns_constant (n n' : String) (p p' : SnapProductM) :
    (Operator.callOp n p).1 = "Successfully Operation."
    ∧ (Operator.callOp n p).1 = (Operator.callOp n' p').1 :=
  ⟨rfl, rfl⟩
